import Mathlib

/-!
Verification development for the EPON/OLT occupancy counter
(repository H3C-EPON-Counter).

The definitions below are a shallow embedding of the core of
src/unnamed/part_000 (v2.1 of the tool):

* `parse_epon_data` embeds the parsing loop of lines 516-552:
  lines are stripped, classified in priority order as a slot marker
  (substring "dis onu slot"), a PON header (substring "Olt" and "/0/"
  under a current slot in [2,7]), or a data line, and a data line whose
  second-to-last whitespace token is "Up"/"Offline"/"Silent" increments
  the matching counter of the current (slot, pon) cell.

* Text lines are modelled as `List Char`; Python's regular expressions
  on these lines are literal/digit patterns without backtracking, so
  they are embedded as explicit scanning functions.  Python `str.strip`
  and `re.split` on whitespace are embedded over the same space set.

* The dictionary `slot_data` (line 518) is embedded as a function
  `Nat -> Nat -> Option Counts`: `none` models an absent key, and the
  increment at a missing key models Python's KeyError by making the
  step return `none` (the exception aborting the parse).

* `getCell`, `isIdle`, `hasAnyData`, `totalIdleCount` embed the
  aggregation reads of `generate_excel_report` (lines 586-620): cell
  reads default to 0, idleness is online == 0 (line 615), a slot has
  data when some port has a nonzero count (lines 589-595), and the idle
  total is accumulated only over slots that have data (lines 598-620).
-/

/-- Python whitespace for `str.strip` and the regex class backslash-s
(space, tab, newline, carriage return, vertical tab, form feed). -/
def isSpaceChar (c : Char) : Bool :=
  c == ' ' || c == '\t' || c == '\n' || c == '\r' || c == '\x0b' || c == '\x0c'

/-- Embeds Python `line.strip()` (line 532). -/
def strip (cs : List Char) : List Char :=
  ((cs.dropWhile isSpaceChar).reverse.dropWhile isSpaceChar).reverse

/-- The pattern `pat` occurs at the head of `cs`. -/
def startsWith : List Char → List Char → Bool
  | [], _ => true
  | _ :: _, [] => false
  | p :: ps, c :: cs => p == c && startsWith ps cs

/-- Embeds Python substring membership `pat in line`. -/
def hasSub (pat : List Char) : List Char → Bool
  | [] => pat.isEmpty
  | c :: cs => startsWith pat (c :: cs) || hasSub pat cs

/-- Embeds Python `line.startswith('-')` (line 543). -/
def startsWithDash (l : List Char) : Bool :=
  match l with
  | [] => false
  | c :: _ => c == '-'

/-- Accumulating splitter: tokens are maximal runs of non-space characters. -/
def splitWsAux : List Char → List Char → List (List Char)
  | [], acc => if acc.isEmpty then [] else [acc.reverse]
  | c :: cs, acc =>
    if isSpaceChar c then
      if acc.isEmpty then splitWsAux cs [] else acc.reverse :: splitWsAux cs []
    else
      splitWsAux cs (c :: acc)

/-- Embeds `re.split` on runs of whitespace (line 546); on the stripped
non-empty lines it is applied to, this is exactly the list of maximal
non-space runs. -/
def splitWs (cs : List Char) : List (List Char) :=
  splitWsAux cs []

/-- Decimal value of a digit run, as Python `int` reads it. -/
def digitsVal (ds : List Char) : Nat :=
  ds.foldl (fun n c => n * 10 + (c.toNat - 48)) 0

/-- Consume a non-empty maximal digit run (regex digit-plus, greedy),
returning its value and the rest. -/
def takeDigitsVal (cs : List Char) : Option (Nat × List Char) :=
  let ds := cs.takeWhile Char.isDigit
  if ds.isEmpty then none
  else some (digitsVal ds, cs.drop ds.length)

/-- `re.search` semantics: try the anchored matcher at every start
position, leftmost match wins. -/
def scanFind (f : List Char → Option Nat) : List Char → Option Nat
  | [] => none
  | c :: cs =>
    match f (c :: cs) with
    | some n => some n
    | none => scanFind f cs

/-- The literal slot-marker token of line 533. -/
def markerChars : List Char := "dis onu slot".toList

/-- Anchored match of the pattern of line 534: the literal marker, one
or more whitespace characters, then a captured digit run. -/
def matchSlotAfter (cs : List Char) : Option Nat :=
  if startsWith markerChars cs then
    let rest := cs.drop markerChars.length
    let sp := rest.takeWhile isSpaceChar
    if sp.isEmpty then none
    else (takeDigitsVal (rest.drop sp.length)).map (fun x => x.1)
  else none

/-- Embeds `re.search` of the slot pattern on a line (line 534). -/
def findSlotNum (l : List Char) : Option Nat :=
  scanFind matchSlotAfter l

/-- The literal interface prefix of lines 538-539. -/
def oltChars : List Char := "Olt".toList

/-- The literal middle segment of lines 538-539. -/
def slashZeroChars : List Char := "/0/".toList

/-- Anchored match of the pattern of line 539: "Olt", a digit run,
"/0/", then a captured digit run. -/
def matchPonAfter (cs : List Char) : Option Nat :=
  if startsWith oltChars cs then
    match takeDigitsVal (cs.drop oltChars.length) with
    | none => none
    | some (_, rest) =>
      if startsWith slashZeroChars rest then
        (takeDigitsVal (rest.drop slashZeroChars.length)).map (fun x => x.1)
      else none
  else none

/-- Embeds `re.search` of the PON pattern on a line (line 539). -/
def findPonNum (l : List Char) : Option Nat :=
  scanFind matchPonAfter l

/-- The column-header keywords of line 544. -/
def noiseKeys : List (List Char) :=
  [ "State".toList, "MAC".toList, "LOID".toList, "LLID".toList, "Port".toList]

/-- Embeds the header-noise test of line 544. -/
def isNoiseLine (l : List Char) : Bool :=
  noiseKeys.any (fun k => hasSub k l)

/-- The state token recognised on line 549 as online. -/
def upChars : List Char := "Up".toList

/-- The state token recognised on line 549 as offline. -/
def offlineChars : List Char := "Offline".toList

/-- The state token recognised on line 549 as silent. -/
def silentChars : List Char := "Silent".toList

/-- The three per-port states counted by the tool (keys of line 518). -/
inductive PortState where
  | online
  | offline
  | silent
deriving DecidableEq

/-- One cell of the occupancy table: the three counters of line 518
(online, offline and silent in the source's key order). -/
structure Counts where
  online : Nat
  offline : Nat
  silent : Nat
deriving DecidableEq

/-- The occupancy table `slot_data`: a dictionary from slot and PON
numbers to counter cells, `none` modelling an absent key. -/
abbrev Table := Nat → Nat → Option Counts

/-- The mutable scan state of the parsing loop (line 519) together
with the table it populates. -/
structure ParseState where
  currentSlot : Option Nat
  currentPort : Option Nat
  table : Table

/-- Python truthiness of `current_slot` / `current_pon`: `None` and 0
are falsy. -/
def truthy : Option Nat → Bool
  | none => false
  | some n => decide (n ≠ 0)

/-- The slot guard of line 538: `current_slot and 2 <= current_slot <= 7`. -/
def slotOk : Option Nat → Bool
  | none => false
  | some n => decide (n ≠ 0) && decide (2 ≤ n) && decide (n ≤ 7)

/-- The branch test of line 533. -/
def isMarkerLine (l : List Char) : Bool :=
  hasSub markerChars l

/-- The branch test of line 538. -/
def isPonHeaderLine (st : ParseState) (l : List Char) : Bool :=
  slotOk st.currentSlot && (hasSub oltChars l && hasSub slashZeroChars l)

/-- The branch test of line 543. -/
def isDataCandidate (st : ParseState) (l : List Char) : Bool :=
  truthy st.currentSlot && (truthy st.currentPort &&
    (!l.isEmpty && !startsWithDash l))

/-- The state-token classification of line 549. -/
def stateKeyOf (tok : List Char) : Option PortState :=
  if tok = upChars then some PortState.online
  else if tok = offlineChars then some PortState.offline
  else if tok = silentChars then some PortState.silent
  else none

/-- The second-to-last whitespace token of a line, `parts[-2]` of
line 548 (meaningful when the line has at least two tokens). -/
def stateToken (line : List Char) : List Char :=
  let parts := splitWs (strip line)
  parts.getD (parts.length - 2) []

/-- The table initialisation of line 518: every pair of a slot in
[2,7] and a PON port in [1,24] is present with all-zero counters;
no other key exists. -/
def initTable : Table := fun s p =>
  if 2 ≤ s ∧ s ≤ 7 ∧ 1 ≤ p ∧ p ≤ 24 then some ⟨0, 0, 0⟩ else none

/-- The initial scan state of line 519. -/
def initState : ParseState :=
  { currentSlot := none, currentPort := none, table := initTable }

/-- Pointwise dictionary write at one key pair. -/
def updateTable (t : Table) (cs cp : Nat) (c : Counts) : Table :=
  fun s p => if s = cs ∧ p = cp then some c else t s p

/-- The counter increment of line 551 on one cell. -/
def incCounts (c : Counts) (k : PortState) : Counts :=
  match k with
  | PortState.online => { c with online := c.online + 1 }
  | PortState.offline => { c with offline := c.offline + 1 }
  | PortState.silent => { c with silent := c.silent + 1 }

/-- The dictionary increment `slot_data[current_slot][current_pon][key] += 1`
(line 551): `none` models the KeyError raised when the addressed cell
does not exist. -/
def bumpCell (st : ParseState) (k : PortState) : Option ParseState :=
  match st.currentSlot, st.currentPort with
  | some cs, some cp =>
    match st.table cs cp with
    | some c => some { st with table := updateTable st.table cs cp (incCounts c k) }
    | none => none
  | _, _ => none

/-- The slot assignment of lines 534-536: keep the old value when the
search fails. -/
def slotUpdate (l : List Char) (old : Option Nat) : Option Nat :=
  match findSlotNum l with
  | some n => some n
  | none => old

/-- The PON assignment of lines 539-541: keep the old value when the
search fails. -/
def ponUpdate (l : List Char) (old : Option Nat) : Option Nat :=
  match findPonNum l with
  | some n => some n
  | none => old

/-- One iteration of the scanning loop of lines 531-551, in the
source's branch priority order; `none` models an uncaught KeyError. -/
def pyStep (st : ParseState) (rawLine : List Char) : Option ParseState :=
  let l := strip rawLine
  if isMarkerLine l then
    some { st with currentSlot := slotUpdate l st.currentSlot }
  else if isPonHeaderLine st l then
    some { st with currentPort := ponUpdate l st.currentPort }
  else if isDataCandidate st l then
    if isNoiseLine l then
      some st
    else
      let parts := splitWs l
      if 2 ≤ parts.length then
        match stateKeyOf (parts.getD (parts.length - 2) []) with
        | some k => bumpCell st k
        | none => some st
      else
        some st
  else
    some st

/-- The whole scanning loop, threading the state over the lines. -/
def runLines : ParseState → List (List Char) → Option ParseState
  | st, [] => some st
  | st, l :: ls =>
    match pyStep st l with
    | some st1 => runLines st1 ls
    | none => none

/-- The parser of lines 516-552 on an already decoded line sequence
(the encoding fallback of lines 520-529 is the caller's concern):
the populated table, or `none` when an exception escapes the loop. -/
def parse_epon_data (lines : List (List Char)) : Option Table :=
  (runLines initState lines).map (fun st => st.table)

/-- A cell read with the zero defaults used throughout the report
generator (`slot_info.get(pon_id, {}).get(key, 0)`). -/
def getCell (t : Table) (s p : Nat) : Counts :=
  (t s p).getD ⟨0, 0, 0⟩

/-- The idleness rule of line 615: a pair is idle when its online
count reads as zero. -/
def isIdle (t : Table) (s p : Nat) : Bool :=
  (getCell t s p).online == 0

/-- The per-slot data test of lines 589-595: some port of the slot has
a nonzero counter. -/
def hasAnyData (t : Table) (s : Nat) : Bool :=
  (List.range' 1 24).any (fun p =>
    decide (0 < (getCell t s p).online) || decide (0 < (getCell t s p).offline)
      || decide (0 < (getCell t s p).silent))

/-- The PON column order of line 603: the odd ports then the even ports. -/
def ponGroups : List Nat :=
  List.range' 1 12 2 ++ List.range' 2 12 2

/-- The idle total of lines 567 and 586-620: slots without data are
skipped (line 598) and each rendered slot contributes its idle ports
in the rendering order of its two port groups. -/
def totalIdleCount (t : Table) : Nat :=
  ((List.range' 2 6).map (fun s =>
    if hasAnyData t s then ponGroups.countP (fun p => isIdle t s p) else 0)).sum

/-- Follows the spec's words for the idle total: the number of
(slot, port) pairs across the whole 6-by-24 grid whose online count
is 0 (to be compared with `totalIdleCount`). -/
def gridIdleCountSpec (t : Table) : Nat :=
  ((List.range' 2 6).map (fun s =>
    (List.range' 1 24).countP (fun p => isIdle t s p))).sum

/-- Follows the amended wording for the idle total: ports with a zero
online count, counted in ascending order within exactly those slots
that have data. -/
def reportedIdleCountSpec (t : Table) : Nat :=
  ((List.range' 2 6).map (fun s =>
    if hasAnyData t s then (List.range' 1 24).countP (fun p => isIdle t s p)
    else 0)).sum

/-- The out-of-range slot-marker line of the spec's rejection scenario. -/
def slot9Line : List Char := "dis onu slot 9".toList

/-- A typical PON-header line as emitted by the device. -/
def ponHeaderLine : List Char := "-- Olt3/0/5 --".toList

/-- A typical ONU data line whose state token is the online one. -/
def upDataLine : List Char := "aaaa-bbbb-cccc Onu3/5/1 Up 101".toList

/-- The end-to-end scenario document exactly as the spec words it,
with the long command form on the first line. -/
def specScenarioDoc : List (List Char) :=
  [ "display onu slot 3".toList,
    "-- Olt3/0/5 --".toList,
    "aaaa-bbbb-cccc Onu3/5/1 Up 101".toList,
    "aaaa-bbbb-cccd Onu3/5/2 Offline 102".toList]

/-- The table parsed from `specScenarioDoc`. -/
def specT : Table :=
  (parse_epon_data specScenarioDoc).getD initTable

/-- The end-to-end scenario document with the marker actually matched
by line 533 of the source, the abbreviated command the collector of
line 421 sends. -/
def c1Doc : List (List Char) :=
  [ "dis onu slot 3".toList,
    "-- Olt3/0/5 --".toList,
    "aaaa-bbbb-cccc Onu3/5/1 Up 101".toList,
    "aaaa-bbbb-cccd Onu3/5/2 Offline 102".toList]

/-- The table parsed from `c1Doc`. -/
def c1T : Table :=
  (parse_epon_data c1Doc).getD initTable

/-- A document whose PON header names port 25, outside the table, and
which then delivers a recognised state to that port. -/
def c2FailDoc : List (List Char) :=
  [ "dis onu slot 3".toList,
    "-- Olt3/0/25 --".toList,
    "aaaa-bbbb-cccc Onu3/25/1 Up 101".toList]

/-- A document consisting of just an out-of-range slot marker. -/
def c3MarkerDoc : List (List Char) :=
  ["dis onu slot 9".toList]

/-- A document in which an out-of-range slot marker follows a valid
slot and PON header, leaving a stale current port when the data line
arrives. -/
def c3CrashDoc : List (List Char) :=
  [ "dis onu slot 3".toList,
    "-- Olt3/0/5 --".toList,
    "dis onu slot 9".toList,
    "aaaa-bbbb-cccc Onu3/5/1 Up 101".toList]

/-- A document putting a single online device on slot 3, port 5. -/
def c4Doc : List (List Char) :=
  [ "dis onu slot 3".toList,
    "-- Olt3/0/5 --".toList,
    "aaaa-bbbb-cccc Onu3/5/1 Up 101".toList]

/-- The table parsed from `c4Doc`: data in slot 3 only. -/
def c4T : Table :=
  (parse_epon_data c4Doc).getD initTable

/-- The table parsed from the empty document. -/
def emptyT : Table :=
  (parse_epon_data []).getD initTable

/-- A document giving slot 3 port 7 five offline and two silent
devices and no online device. -/
def c7OffDoc : List (List Char) :=
  [ "dis onu slot 3".toList,
    "-- Olt3/0/7 --".toList,
    "aaaa-bbbb-cc01 Onu3/7/1 Offline 101".toList,
    "aaaa-bbbb-cc02 Onu3/7/2 Offline 102".toList,
    "aaaa-bbbb-cc03 Onu3/7/3 Offline 103".toList,
    "aaaa-bbbb-cc04 Onu3/7/4 Offline 104".toList,
    "aaaa-bbbb-cc05 Onu3/7/5 Offline 105".toList,
    "aaaa-bbbb-cc06 Onu3/7/6 Silent 106".toList,
    "aaaa-bbbb-cc07 Onu3/7/7 Silent 107".toList]

/-- The table parsed from `c7OffDoc`. -/
def c7T : Table :=
  (parse_epon_data c7OffDoc).getD initTable

/-- A parse state with slot 3 and port 5 current over the fresh table. -/
def dataState35 : ParseState :=
  { currentSlot := some 3, currentPort := some 5, table := initTable }

/-- A parse state whose slot register holds the out-of-range 9 while
port 5 is still current from an earlier valid slot. -/
def staleState95 : ParseState :=
  { currentSlot := some 9, currentPort := some 5, table := initTable }

/-- When both parse-state registers hold keys of an existing cell, the
increment of line 551 succeeds and rewrites exactly that cell. -/
theorem bumpCell_eq (st : ParseState) (k : PortState) (cs cp : Nat) (c : Counts)
    (hslot : st.currentSlot = some cs) (hport : st.currentPort = some cp)
    (hcell : st.table cs cp = some c) :
    bumpCell st k =
      some { st with table := updateTable st.table cs cp (incCounts c k) } := by
  simp only [bumpCell, hslot, hport, hcell]

/-- A successful increment step changes neither register and keeps the
key set of the table. -/
theorem bumpCell_some (st : ParseState) (k : PortState) (st1 : ParseState)
    (h : bumpCell st k = some st1) :
    st1.currentSlot = st.currentSlot ∧ st1.currentPort = st.currentPort ∧
      ∀ s p, (st1.table s p).isSome = (st.table s p).isSome := by
  obtain ⟨oslot, oport, tbl⟩ := st
  cases oslot with
  | none => exact Option.noConfusion h
  | some cs =>
    cases oport with
    | none => exact Option.noConfusion h
    | some cp =>
      cases hc : tbl cs cp with
      | none =>
        simp [bumpCell, hc] at h
      | some c =>
        simp only [bumpCell, hc] at h
        injection h with h
        subst h
        refine ⟨rfl, rfl, fun s p => ?_⟩
        show ((updateTable tbl cs cp (incCounts c k)) s p).isSome = (tbl s p).isSome
        unfold updateTable
        by_cases hsp : s = cs ∧ p = cp
        · rw [if_pos hsp, hsp.1, hsp.2, hc]
          rfl
        · rw [if_neg hsp]

/-- One successful scan step never adds or removes a table key. -/
theorem pyStep_table_isSome (st : ParseState) (line : List Char)
    (st1 : ParseState) (h : pyStep st line = some st1) (s p : Nat) :
    (st1.table s p).isSome = (st.table s p).isSome := by
  simp only [pyStep] at h
  split at h
  · injection h with h
    subst h
    rfl
  · split at h
    · injection h with h
      subst h
      rfl
    · split at h
      · split at h
        · injection h with h
          subst h
          rfl
        · split at h
          · split at h
            · exact (bumpCell_some st _ st1 h).2.2 s p
            · injection h with h
              subst h
              rfl
          · injection h with h
            subst h
            rfl
      · injection h with h
        subst h
        rfl

/-- A successful whole scan never adds or removes a table key. -/
theorem runLines_table_isSome :
    ∀ (lines : List (List Char)) (st st1 : ParseState),
    runLines st lines = some st1 →
    ∀ s p, (st1.table s p).isSome = (st.table s p).isSome := by
  intro lines
  induction lines with
  | nil =>
    intro st st1 h s p
    unfold runLines at h
    injection h with h
    subst h
    rfl
  | cons l ls ih =>
    intro st st1 h s p
    unfold runLines at h
    cases hstep : pyStep st l with
    | none =>
      rw [hstep] at h
      exact Option.noConfusion h
    | some st2 =>
      rw [hstep] at h
      have h2 : runLines st2 ls = some st1 := h
      rw [ih st2 st1 h2 s p, pyStep_table_isSome st l st2 hstep s p]

/-- The key set fixed on line 518: exactly the slots 2..7 paired with
the ports 1..24. -/
theorem initTable_isSome (s p : Nat) :
    (initTable s p).isSome = true ↔ (2 ≤ s ∧ s ≤ 7 ∧ 1 ≤ p ∧ p ≤ 24) := by
  unfold initTable
  split
  · rename_i hin
    simpa using hin
  · rename_i hout
    simpa using hout

/-- Claim C1 (as stated, refuted): on the spec's four-line scenario,
whose first line is the long command form, line 533 of the source
matches only the abbreviated token, so no slot ever becomes current:
the parse succeeds but cell (3,5) stays (0,0,0) instead of the claimed
(1,1,0), the pair reads as idle, and slot 3 reports no data. -/
theorem c1_end_to_end_counterexample :
    (parse_epon_data specScenarioDoc).isSome = true ∧
    getCell specT 3 5 = ⟨0, 0, 0⟩ ∧
    getCell specT 3 5 ≠ ⟨1, 1, 0⟩ ∧
    isIdle specT 3 5 = true ∧
    hasAnyData specT 3 = false := by
  decide

/-- Claim C1 (amended): with the marker line written in the
abbreviated command form the source actually matches, the four-line
scenario produces a table with cell (3,5) equal to (1,1,0), not idle,
slot 3 reporting data, and every other pair all-zero and idle. -/
theorem c1_end_to_end_amended :
    (parse_epon_data c1Doc).isSome = true ∧
    getCell c1T 3 5 = ⟨1, 1, 0⟩ ∧
    isIdle c1T 3 5 = false ∧
    hasAnyData c1T 3 = true ∧
    (∀ s, s ∈ List.range' 2 6 → ∀ p, p ∈ List.range' 1 24 →
      ¬(s = 3 ∧ p = 5) →
      getCell c1T s p = ⟨0, 0, 0⟩ ∧ isIdle c1T s p = true) := by
  decide

/-- Witness for the amended claim C1 at the concrete pair (2,1). -/
theorem c1_end_to_end_amended_witness :
    getCell c1T 2 1 = ⟨0, 0, 0⟩ ∧ isIdle c1T 2 1 = true :=
  c1_end_to_end_amended.2.2.2.2 2 (by decide) 1 (by decide) (by decide)

/-- Claim C2 (code bug): a PON header naming port 25, outside the
[1,24] key range fixed on line 518, is stored as the current port
(lines 539-541 perform no range check), and the next data line with a
recognised state token performs the increment of line 551 on a missing
key: the KeyError escapes the loop, modelled here by the parse
evaluating to `none` rather than skipping the line. -/
theorem c2_out_of_range_port_crash : parse_epon_data c2FailDoc = none := rfl

/-- Claim C3 (as stated, refuted): a slot marker naming slot 9 does
not leave the current slot unset: line 536 stores 9 without a range
check.  Moreover a subsequent data line under that marker is not
always ignored: with a stale current port from an earlier valid slot,
the increment of line 551 addresses the missing slot key 9 and the
KeyError aborts the parse instead of leaving the table unaffected. -/
theorem c3_slot_rejection_counterexample :
    (runLines initState c3MarkerDoc).map (fun st => st.currentSlot) =
      some (some 9) ∧
    (runLines initState c3MarkerDoc).map (fun st => st.currentSlot) ≠
      some none ∧
    parse_epon_data c3CrashDoc = none := by
  refine ⟨by decide, by decide, rfl⟩

/-- Claim C3 (amended): the slot-9 marker stores 9 into the current
slot; under such an out-of-range (or unset, or zero) slot the PON
branch of line 538 is disabled, so while the current port is unset
every subsequent non-marker line leaves the whole parse state — table
included — unchanged. -/
theorem c3_slot_rejection_amended :
    (∀ st : ParseState,
      pyStep st slot9Line = some { st with currentSlot := some 9 }) ∧
    (∀ (st : ParseState) (line : List Char),
      slotOk st.currentSlot = false → st.currentPort = none →
      isMarkerLine (strip line) = false → pyStep st line = some st) := by
  constructor
  · intro st
    rfl
  · intro st line h1 h2 h3
    have hp : isPonHeaderLine st (strip line) = false := by
      simp [isPonHeaderLine, h1]
    have hd : isDataCandidate st (strip line) = false := by
      simp [isDataCandidate, truthy, h2]
    simp [pyStep, h3, hp, hd]

/-- Witness for the amended claim C3: a state whose slot register
holds the out-of-range 9 and whose port register is unset absorbs a
data line without any change. -/
theorem c3_slot_rejection_amended_witness :
    pyStep { currentSlot := some 9, currentPort := none, table := initTable }
      upDataLine =
    some { currentSlot := some 9, currentPort := none, table := initTable } :=
  c3_slot_rejection_amended.2
    { currentSlot := some 9, currentPort := none, table := initTable }
    upDataLine (by decide) rfl (by decide)

/-- Claim C4 (as stated, refuted): the idle total of the report is not
the whole-grid count of pairs with a zero online count.  On a table
with data only in slot 3, the report skips the five empty slots
(line 598) and counts 23 idle ports, while the whole grid holds 143
such pairs; on the empty table the report counts 0, not 144. -/
theorem c4_total_idle_counterexample :
    totalIdleCount c4T = 23 ∧ gridIdleCountSpec c4T = 143 ∧
    totalIdleCount c4T ≠ gridIdleCountSpec c4T ∧
    totalIdleCount emptyT = 0 ∧ gridIdleCountSpec emptyT = 144 ∧
    totalIdleCount emptyT ≠ gridIdleCountSpec emptyT := by
  decide

/-- Claim C4 (amended): for every table, the idle total equals the
number of ports with a zero online count summed over exactly those
slots that have at least one nonzero counter; slots that never
received data contribute nothing, so the empty table totals 0. -/
theorem c4_total_idle_amended :
    (∀ t : Table, totalIdleCount t = reportedIdleCountSpec t) ∧
    totalIdleCount emptyT = 0 := by
  constructor
  · intro t
    unfold totalIdleCount reportedIdleCountSpec
    have hc : ∀ f : Nat → Bool,
        List.countP f ponGroups = List.countP f (List.range' 1 24) := by
      intro f
      exact List.Perm.countP_eq f
        (by decide : List.Perm ponGroups (List.range' 1 24))
    simp only [hc]
  · decide

/-- Claim C5 (confirmed): a table returned by a successful parse has a
cell exactly at the 144 pairs of a slot in [2,7] and a port in [1,24];
those cells start as the all-zero triple of line 518, and the empty
document returns exactly that initial table. -/
theorem c5_total_coverage :
    (∀ (lines : List (List Char)) (t : Table), parse_epon_data lines = some t →
      ∀ s p, ((t s p).isSome = true ↔ (2 ≤ s ∧ s ≤ 7 ∧ 1 ≤ p ∧ p ≤ 24))) ∧
    (∀ s p, 2 ≤ s → s ≤ 7 → 1 ≤ p → p ≤ 24 → initTable s p = some ⟨0, 0, 0⟩) ∧
    parse_epon_data [] = some initTable := by
  refine ⟨?_, ?_, rfl⟩
  · intro lines t h s p
    unfold parse_epon_data at h
    cases hrun : runLines initState lines with
    | none =>
      rw [hrun] at h
      exact Option.noConfusion h
    | some st1 =>
      rw [hrun] at h
      have h2 : some st1.table = some t := h
      injection h2 with ht
      have hiso := runLines_table_isSome lines initState st1 hrun s p
      rw [← ht, hiso]
      exact initTable_isSome s p
  · intro s p h2 h7 h1 h24
    unfold initTable
    rw [if_pos ⟨h2, h7, h1, h24⟩]

/-- Witness for claim C5 at the empty document and the pair (3,5). -/
theorem c5_total_coverage_witness :
    (initTable 3 5).isSome = true ↔ (2 ≤ 3 ∧ 3 ≤ 7 ∧ 1 ≤ 5 ∧ 5 ≤ 24) :=
  c5_total_coverage.1 [] initTable rfl 3 5

/-- Claim C7 (confirmed): a pair is idle exactly when its online count
is zero, whatever the offline and silent counts; in particular the
parsed cell (0,5,2) is idle and the parsed cell (1,0,0) is not. -/
theorem c7_idle_derivation :
    (∀ (t : Table) (s p : Nat),
      isIdle t s p = true ↔ (getCell t s p).online = 0) ∧
    getCell c7T 3 7 = ⟨0, 5, 2⟩ ∧ isIdle c7T 3 7 = true ∧
    getCell c4T 3 5 = ⟨1, 0, 0⟩ ∧ isIdle c4T 3 5 = false := by
  refine ⟨?_, by decide, by decide, by decide, by decide⟩
  intro t s p
  unfold isIdle
  exact beq_iff_eq

/-- Claim C6 (confirmed): on a line that reaches the data branch with
both registers set to keys of an existing cell and that survives the
noise filter with at least two whitespace tokens, the second-to-last
token alone decides the outcome: "Up" increments the cell's online
count, "Offline" its offline count, "Silent" its silent count, and
any other token leaves the state — and the whole table — unchanged. -/
theorem c6_state_token_mapping (st : ParseState) (line : List Char)
    (cs cp : Nat) (c : Counts)
    (hslot : st.currentSlot = some cs) (hport : st.currentPort = some cp)
    (hcs : cs ≠ 0) (hcp : cp ≠ 0)
    (hcell : st.table cs cp = some c)
    (hm : isMarkerLine (strip line) = false)
    (hph : isPonHeaderLine st (strip line) = false)
    (hne : (strip line).isEmpty = false)
    (hdash : startsWithDash (strip line) = false)
    (hnoise : isNoiseLine (strip line) = false)
    (hlen : 2 ≤ (splitWs (strip line)).length) :
    (stateToken line = upChars → pyStep st line =
      some { st with
        table := updateTable st.table cs cp (incCounts c PortState.online) }) ∧
    (stateToken line = offlineChars → pyStep st line =
      some { st with
        table := updateTable st.table cs cp (incCounts c PortState.offline) }) ∧
    (stateToken line = silentChars → pyStep st line =
      some { st with
        table := updateTable st.table cs cp (incCounts c PortState.silent) }) ∧
    (stateToken line ≠ upChars → stateToken line ≠ offlineChars →
      stateToken line ≠ silentChars → pyStep st line = some st) := by
  have hcand : isDataCandidate st (strip line) = true := by
    simp [isDataCandidate, truthy, hslot, hport, hcs, hcp, hne, hdash]
  have hstep : pyStep st line =
      (match stateKeyOf (stateToken line) with
        | some k => bumpCell st k
        | none => some st) := by
    simp only [pyStep, stateToken]
    rw [if_neg (by simp [hm]), if_neg (by simp [hph]),
      if_pos (by simp [hcand]), if_neg (by simp [hnoise]), if_pos hlen]
  refine ⟨?_, ?_, ?_, ?_⟩
  · intro htok
    rw [hstep, htok]
    exact bumpCell_eq st PortState.online cs cp c hslot hport hcell
  · intro htok
    rw [hstep, htok]
    exact bumpCell_eq st PortState.offline cs cp c hslot hport hcell
  · intro htok
    rw [hstep, htok]
    exact bumpCell_eq st PortState.silent cs cp c hslot hport hcell
  · intro h1 h2 h3
    have hk : stateKeyOf (stateToken line) = none := by
      unfold stateKeyOf
      rw [if_neg h1, if_neg h2, if_neg h3]
    rw [hstep, hk]

/-- Witness for claim C6: a concrete data line whose token is "Up"
increments the online counter of the current cell (3,5). -/
theorem c6_state_token_mapping_witness :
    pyStep dataState35 upDataLine =
      some { dataState35 with
              table := updateTable initTable 3 5
                (incCounts ⟨0, 0, 0⟩ PortState.online) } :=
  (c6_state_token_mapping dataState35 upDataLine 3 5 ⟨0, 0, 0⟩ rfl rfl
    (by decide) (by decide) (by decide) (by decide) (by decide) (by decide)
    (by decide) (by decide) (by decide)).1 (by decide)

/-- Claim C8 (confirmed): a line recognised as a slot marker mutates
only the current slot: whatever the parse state, the step succeeds
and returns the same state with at most the slot register replaced,
so the current port always retains its previous value. -/
theorem c8_marker_keeps_port (st : ParseState) (line : List Char)
    (h : isMarkerLine (strip line) = true) :
    ∃ ns, pyStep st line = some { st with currentSlot := ns } := by
  refine ⟨slotUpdate (strip line) st.currentSlot, ?_⟩
  simp only [pyStep]
  rw [if_pos h]

/-- Witness for claim C8 on the concrete marker line for slot 9. -/
theorem c8_marker_keeps_port_witness :
    ∃ ns, pyStep initState slot9Line = some { initState with currentSlot := ns } :=
  c8_marker_keeps_port initState slot9Line (by decide)

/-- Claim C9 (confirmed): the parse depends on the line sequence
alone — the state and table are created fresh inside each call — so
two successful parses of the same sequence agree on every cell. -/
theorem c9_parse_deterministic (lines : List (List Char)) (t1 t2 : Table)
    (h1 : parse_epon_data lines = some t1)
    (h2 : parse_epon_data lines = some t2) :
    ∀ s p, t1 s p = t2 s p := by
  rw [h1] at h2
  intro s p
  injection h2 with h
  rw [h]

/-- Witness for claim C9 at the empty document and the pair (3,5). -/
theorem c9_parse_deterministic_witness : initTable 3 5 = initTable 3 5 :=
  c9_parse_deterministic [] initTable initTable rfl rfl 3 5

/-- Claim C10 (confirmed, strengthened to every line): the PON-header
branch of line 538 is the only writer of the current port, and it is
guarded by the slot range test; hence whenever the slot register is
unset, zero, or out of [2,7], any line whose step completes — PON
headers in particular — leaves the current port unchanged. -/
theorem c10_pon_header_requires_slot (st : ParseState) (line : List Char)
    (st1 : ParseState) (h : slotOk st.currentSlot = false)
    (hstep : pyStep st line = some st1) :
    st1.currentPort = st.currentPort := by
  simp only [pyStep] at hstep
  by_cases hm : isMarkerLine (strip line) = true
  · rw [if_pos hm] at hstep
    injection hstep with h2
    subst h2
    rfl
  · rw [if_neg hm] at hstep
    have hph : ¬ isPonHeaderLine st (strip line) = true := by
      simp [isPonHeaderLine, h]
    rw [if_neg hph] at hstep
    by_cases hd : isDataCandidate st (strip line) = true
    · rw [if_pos hd] at hstep
      by_cases hn : isNoiseLine (strip line) = true
      · rw [if_pos hn] at hstep
        injection hstep with h2
        subst h2
        rfl
      · rw [if_neg hn] at hstep
        by_cases hl : 2 ≤ (splitWs (strip line)).length
        · rw [if_pos hl] at hstep
          cases hk : stateKeyOf
              ((splitWs (strip line)).getD ((splitWs (strip line)).length - 2) [])
            with
          | some k =>
            rw [hk] at hstep
            exact (bumpCell_some st k st1 hstep).2.1
          | none =>
            rw [hk] at hstep
            injection hstep with h2
            subst h2
            rfl
        · rw [if_neg hl] at hstep
          injection hstep with h2
          subst h2
          rfl
    · rw [if_neg hd] at hstep
      injection hstep with h2
      subst h2
      rfl

/-- Witness for claim C10: under current slot 9 a PON-header line is
absorbed with the current port 5 left in place. -/
theorem c10_pon_header_requires_slot_witness :
    staleState95.currentPort = staleState95.currentPort :=
  c10_pon_header_requires_slot staleState95 ponHeaderLine staleState95
    (by decide) rfl
